import Mathlib

/-!
Verification of the dashboard repository's server-lifecycle behaviour.

The definitions below are shallow embeddings of the JavaScript frontend
(`src/frontend/src/pages/DashboardPage.jsx`, the `ServerTableRow` component),
the SQL migrations under `src/migrations/`, and the migration tool's
extraction queries (`get_servers.sql`, `get_clients.sql`).  Definitions whose
doc comment starts with `Spec table:` or `Modelled from the spec:` transcribe
the natural-language specification instead of source code; they exist to be
compared against the source-derived definitions, or to stand in for
repository code that is not present in the source tree.
-/

namespace Dashboard

/-- The nine status values of the specification's closed status enum
(three stable, six transient), as the strings the system uses. -/
def specStatusEnum : List String :=
  ["running", "stopped", "failed",
   "setting_up", "starting", "stopping", "rebooting", "shutting_down", "deleting"]

/-- Spec table: the six transient statuses of §3. -/
def specTransientStatuses : List String :=
  ["setting_up", "starting", "stopping", "rebooting", "shutting_down", "deleting"]

/-- Spec table: the three stable statuses of §3. -/
def specStableStatuses : List String :=
  ["running", "stopped", "failed"]

/-- `isTransient` as defined (identically) in `ServerTableRow` and in
`DashboardPage.jsx`: membership of the status string in a fixed list. -/
def isTransient (status : String) : Bool :=
  ["setting_up", "deleting", "starting", "stopping", "rebooting", "shutting_down"].contains status

/-- The MUI chip color names returned by `getStatusChipColor`. -/
inductive ChipColor
  | success
  | defaultColor
  | error
  | warning
  | primary
  deriving DecidableEq, Repr

/-- `getStatusChipColor` from the `ServerTableRow` component: a switch on the
status string.  Note the switch lists `setting_up`, `starting`, `rebooting`,
`shutting_down` and `deleting` under the `warning` branch but has no case for
`stopping`, which therefore falls through to the default branch. -/
def getStatusChipColor (status : String) : ChipColor :=
  match status with
  | "running" => ChipColor.success
  | "stopped" => ChipColor.defaultColor
  | "failed" => ChipColor.error
  | "setting_up" => ChipColor.warning
  | "starting" => ChipColor.warning
  | "rebooting" => ChipColor.warning
  | "shutting_down" => ChipColor.warning
  | "deleting" => ChipColor.warning
  | _ => ChipColor.primary

/-- The five user-requestable lifecycle actions of the dashboard UI. -/
inductive UserAction
  | start
  | stop
  | reboot
  | shutdown
  | delete
  deriving DecidableEq, Repr, Fintype

/-- The `disabled` predicate of each action button in the `ServerTableRow`
component, as a function of the row's status and the button's action. -/
def actionButtonDisabled (status : String) : UserAction → Bool
  | UserAction.start => status == "running" || isTransient status
  | UserAction.stop => !(["running", "failed"].contains status) || isTransient status
  | UserAction.reboot => !(status == "running") || isTransient status
  | UserAction.shutdown => !(["running"].contains status) || isTransient status
  | UserAction.delete => !(["stopped", "failed"].contains status) || isTransient status

/-- Spec table: the §4.1 transition table's allowed (status, action) pairs for
the five post-creation actions. -/
def specActionAllowed (status : String) : UserAction → Bool
  | UserAction.start => status == "stopped" || status == "failed"
  | UserAction.stop => status == "running" || status == "failed"
  | UserAction.reboot => status == "running"
  | UserAction.shutdown => status == "running"
  | UserAction.delete => status == "stopped" || status == "failed"

/-- Spec table: the §4.1 transition table's transient target for each action. -/
def specTransientTarget : UserAction → String
  | UserAction.start => "starting"
  | UserAction.stop => "stopping"
  | UserAction.reboot => "rebooting"
  | UserAction.shutdown => "shutting_down"
  | UserAction.delete => "deleting"

/-- `optimisticStatusMap` from `handleAction` in `DashboardPage.jsx`.  The map
has keys `start`, `stop`, `reboot`, `shutdown` only; `delete` is dispatched by
the separate `handleDelete`, which writes the status below. -/
def optimisticStatusMap : UserAction → Option String
  | UserAction.start => some "starting"
  | UserAction.stop => some "stopping"
  | UserAction.reboot => some "rebooting"
  | UserAction.shutdown => some "shutting_down"
  | UserAction.delete => none

/-- The optimistic status `handleDelete` writes into the row it is deleting. -/
def deleteOptimisticStatus : String := "deleting"

/-- Claim C6: over the nine-value status enum, `isTransient` returns `true`
exactly on the six transient statuses and `false` exactly on the three stable
statuses. -/
theorem isTransient_exact :
    ∀ s ∈ specStatusEnum,
      (isTransient s = true ↔ s ∈ specTransientStatuses) ∧
      (isTransient s = false ↔ s ∈ specStableStatuses) := by
  decide

theorem isTransient_exact_witness :
    "stopping" ∈ specStatusEnum ∧
      (isTransient "stopping" = true ↔ "stopping" ∈ specTransientStatuses) := by
  exact ⟨by decide, (isTransient_exact "stopping" (by decide)).1⟩

/-- Claim C8 counterexample: `stopping` is transient for `isTransient`, yet
`getStatusChipColor` maps it to `primary` (the default branch), not `warning`:
the chip-color switch has no `stopping` case. -/
theorem chipColor_stopping_not_warning :
    isTransient "stopping" = true ∧
      getStatusChipColor "stopping" = ChipColor.primary ∧
      ChipColor.primary ≠ ChipColor.warning := by
  decide

/-- Claim C8 (amended): `getStatusChipColor` maps `running`, `stopped`,
`failed` to `success`, `default`, `error`; it maps every transient status
except `stopping` to `warning`; `stopping` (missing from the switch) falls to
the default branch and gets `primary`. -/
theorem getStatusChipColor_table :
    specStatusEnum.map getStatusChipColor =
      [ChipColor.success, ChipColor.defaultColor, ChipColor.error,
       ChipColor.warning, ChipColor.warning, ChipColor.primary,
       ChipColor.warning, ChipColor.warning, ChipColor.warning] := by
  decide

/-- Claim C1: over the nine-value status enum, each action button is enabled
exactly when the §4.1 table allows that action for the row's status — start
from `stopped`/`failed`, stop from `running`/`failed`, reboot and shutdown
from `running`, delete from `stopped`/`failed` — and every button is disabled
whenever the status is transient. -/
theorem actionButtons_match_spec_table :
    (∀ s ∈ specStatusEnum, ∀ a : UserAction,
        actionButtonDisabled s a = false ↔ specActionAllowed s a = true) ∧
    (∀ s ∈ specStatusEnum, isTransient s = true →
        ∀ a : UserAction, actionButtonDisabled s a = true) := by
  decide

theorem actionButtons_match_spec_table_witness :
    ("stopped" ∈ specStatusEnum ∧
      (actionButtonDisabled "stopped" UserAction.start = false ↔
        specActionAllowed "stopped" UserAction.start = true)) ∧
    ("starting" ∈ specStatusEnum ∧ isTransient "starting" = true ∧
      actionButtonDisabled "starting" UserAction.stop = true) := by
  refine ⟨⟨by decide, actionButtons_match_spec_table.1 "stopped" (by decide) UserAction.start⟩,
    by decide, by decide,
    actionButtons_match_spec_table.2 "starting" (by decide) (by decide) UserAction.stop⟩

/-- Claim C7: the optimistic status the client displays on dispatch equals the
§4.1 table's transient target for every action — via `optimisticStatusMap` for
the four power actions of `handleAction`, and via `handleDelete`'s direct
write for `delete`. -/
theorem optimisticStatus_matches_spec_target :
    (∀ a : UserAction, a ≠ UserAction.delete →
        optimisticStatusMap a = some (specTransientTarget a)) ∧
    deleteOptimisticStatus = specTransientTarget UserAction.delete := by
  decide

theorem optimisticStatus_matches_spec_target_witness :
    UserAction.start ≠ UserAction.delete ∧
      optimisticStatusMap UserAction.start =
        some (specTransientTarget UserAction.start) := by
  exact ⟨by decide,
    optimisticStatus_matches_spec_target.1 UserAction.start (by decide)⟩

/-- A server object as fetched by the dashboard (the `Server` typedef in
`DashboardPage.jsx`). -/
structure Server where
  server_id : String
  ip_address : String
  status : String
  vm_id : Option Int
  node_name : Option String
  deriving DecidableEq, Repr

/-- The `DashboardPage` state relevant to polling: the `servers` and
`isPolling` React state hooks. -/
structure ClientState where
  servers : List Server
  isPolling : Bool
  deriving DecidableEq, Repr

/-- The initial `DashboardPage` state: `useState([])` and `useState(false)`. -/
def initialClientState : ClientState := { servers := [], isPolling := false }

/-- Effect of a successful `GET /servers` response, as in `refreshServers`
and in the `useInterval` tick body: store the fetched list; if no fetched
server is transient, stop polling.  Neither path ever sets `isPolling` to
`true`. -/
def applyFetchSuccess (st : ClientState) (fetched : List Server) : ClientState :=
  { servers := fetched,
    isPolling :=
      if fetched.any (fun s => isTransient s.status) then st.isPolling else false }

/-- Effect of a failed `GET /servers` call (the `catch` branch of
`refreshServers` and of the interval tick): record the error and stop
polling; the server list is left unchanged. -/
def applyFetchFailure (st : ClientState) : ClientState :=
  { st with isPolling := false }

/-- The state update `handleAction` performs before awaiting the API call:
optimistically rewrite the target row's status via `optimisticStatusMap` and
set `isPolling` to `true`.  `handleAction` is only reached from the four
power-action buttons, whose actions are all keys of the map. -/
def applyActionDispatch (st : ClientState) (id : String) (a : UserAction) :
    ClientState :=
  { servers := st.servers.map fun s =>
      if s.server_id == id then
        { s with status := (optimisticStatusMap a).getD s.status }
      else s,
    isPolling := true }

/-- The state update `handleDelete` performs before awaiting the API call:
optimistically mark the row `deleting` and set `isPolling` to `true`. -/
def applyDeleteDispatch (st : ClientState) (id : String) : ClientState :=
  { servers := st.servers.map fun s =>
      if s.server_id == id then { s with status := deleteOptimisticStatus }
      else s,
    isPolling := true }

/-- The `useInterval` delay argument: `isPolling ? 5000 : null`, so the tick
runs every 5000 ms exactly while `isPolling` holds. -/
def pollDelay (st : ClientState) : Option Nat :=
  if st.isPolling then some 5000 else none

/-- Outcome of an action or delete API call as `handleAction`/`handleDelete`
observe it: either the request is accepted, or it rejects and the subsequent
`refreshServers` re-fetch returns the persisted list. -/
inductive ApiOutcome
  | accepted
  | rejected (persisted : List Server)
  deriving Repr

/-- `handleAction` end to end: the optimistic update followed, on rejection,
by the `refreshServers` re-fetch of the persisted list. -/
def runHandleAction (st : ClientState) (id : String) (a : UserAction)
    (o : ApiOutcome) : ClientState :=
  let st1 := applyActionDispatch st id a
  match o with
  | ApiOutcome.accepted => st1
  | ApiOutcome.rejected persisted => applyFetchSuccess st1 persisted

/-- `handleDelete` end to end, analogously. -/
def runHandleDelete (st : ClientState) (id : String) (o : ApiOutcome) :
    ClientState :=
  let st1 := applyDeleteDispatch st id
  match o with
  | ApiOutcome.accepted => st1
  | ApiOutcome.rejected persisted => applyFetchSuccess st1 persisted

/-- Claim C3 counterexample: on initial page load (`isPolling` starts
`false`), a fetch that returns a list containing a transient server leaves
`isPolling` `false`, so the `useInterval` delay stays `null` and no 5-second
polling starts — refuting the claim that polling runs whenever any fetched
server is transient, including after the initial load. -/
theorem initialLoad_transient_no_polling :
    (let fetched : List Server :=
      [{ server_id := "srv-1", ip_address := "10.0.0.5",
         status := "setting_up", vm_id := none, node_name := none }]
    (fetched.any fun s => isTransient s.status) = true ∧
      pollDelay (applyFetchSuccess initialClientState fetched) = none) := by
  decide

/-- Claim C3 (amended): the client polls `GET /servers` every 5 seconds
exactly while `isPolling` holds; dispatching an action or a delete sets
`isPolling`, a fetch result with no transient server (or a failed fetch)
clears it, and a fetch never sets it — so polling starts only from a
dispatch, not from the initial page load, and stops once no fetched server
remains transient. -/
theorem polling_lifecycle :
    (∀ st : ClientState, pollDelay st = if st.isPolling then some 5000 else none) ∧
    (∀ (st : ClientState) (id : String) (a : UserAction),
        pollDelay (applyActionDispatch st id a) = some 5000) ∧
    (∀ (st : ClientState) (id : String),
        pollDelay (applyDeleteDispatch st id) = some 5000) ∧
    (∀ (st : ClientState) (fetched : List Server),
        (fetched.any fun s => isTransient s.status) = false →
          pollDelay (applyFetchSuccess st fetched) = none) ∧
    (∀ st : ClientState, pollDelay (applyFetchFailure st) = none) ∧
    (∀ (st : ClientState) (fetched : List Server),
        (applyFetchSuccess st fetched).isPolling = true → st.isPolling = true) := by
  refine ⟨fun st => rfl, fun st id a => rfl, fun st id => rfl, ?_, fun st => rfl, ?_⟩
  · intro st fetched h
    simp [pollDelay, applyFetchSuccess, h]
  · intro st fetched h
    by_cases hc : (fetched.any fun s => isTransient s.status) = true
    · simpa [applyFetchSuccess, hc] using h
    · simp [applyFetchSuccess, hc] at h

theorem polling_lifecycle_witness :
    ((([] : List Server).any fun s => isTransient s.status) = false ∧
      pollDelay (applyFetchSuccess initialClientState []) = none) ∧
      ({ servers := [], isPolling := true } : ClientState).isPolling = true := by
  exact ⟨⟨by decide, polling_lifecycle.2.2.2.1 initialClientState [] (by decide)⟩,
    polling_lifecycle.2.2.2.2.2 { servers := [], isPolling := true }
      [{ server_id := "srv-1", ip_address := "10.0.0.5",
         status := "starting", vm_id := none, node_name := none }] (by decide)⟩

/-- Claim C9: when the action or delete API call rejects, the client re-runs
the fetch, so the displayed server list equals the persisted list returned by
the re-fetch — the optimistic transient status written at dispatch time is
discarded. -/
theorem failed_dispatch_refetches_persisted :
    (∀ (st : ClientState) (id : String) (a : UserAction)
        (persisted : List Server),
        (runHandleAction st id a (ApiOutcome.rejected persisted)).servers =
          persisted) ∧
    (∀ (st : ClientState) (id : String) (persisted : List Server),
        (runHandleDelete st id (ApiOutcome.rejected persisted)).servers =
          persisted) := by
  exact ⟨fun st id a persisted => rfl, fun st id persisted => rfl⟩

/-- An SQL cell value, for the column types the migrations use. -/
inductive SqlValue
  | null
  | text (s : String)
  | int (n : Int)
  | uuid (s : String)
  deriving DecidableEq, Repr

/-- The SQL column types occurring in the migrations. -/
inductive SqlType
  | tText
  | tInt
  | tUuid
  deriving DecidableEq, Repr

/-- A column declaration, transcribed from a `CREATE TABLE` / `ALTER TABLE`
statement. -/
structure Column where
  name : String
  ty : SqlType
  notNull : Bool
  unique : Bool
  primaryKey : Bool
  deriving DecidableEq, Repr

/-- The `servers` table of `20251004055120_add_services.sql`: `id UUID
PRIMARY KEY`, `network_id UUID NOT NULL`, `vm_id INTEGER`, `node_name TEXT`,
`ip_address TEXT NOT NULL`.  No later migration adds columns to it; in
particular `20251019064704_add_whmcs_ids.sql` adds `whmcs_id` to six other
tables but not to `servers`. -/
def serversTable : List Column :=
  [{ name := "id", ty := SqlType.tUuid, notNull := true, unique := false, primaryKey := true },
   { name := "network_id", ty := SqlType.tUuid, notNull := true, unique := false, primaryKey := false },
   { name := "vm_id", ty := SqlType.tInt, notNull := false, unique := false, primaryKey := false },
   { name := "node_name", ty := SqlType.tText, notNull := false, unique := false, primaryKey := false },
   { name := "ip_address", ty := SqlType.tText, notNull := true, unique := false, primaryKey := false }]

/-- The `services` table of `20251004055120_add_services.sql`, including the
`whmcs_id INT UNIQUE` column added by `20251019064704_add_whmcs_ids.sql`
(corresponding to `tblhosting.id`). -/
def servicesTable : List Column :=
  [{ name := "id", ty := SqlType.tUuid, notNull := true, unique := false, primaryKey := true },
   { name := "status", ty := SqlType.tText, notNull := true, unique := false, primaryKey := false },
   { name := "user_id", ty := SqlType.tUuid, notNull := true, unique := false, primaryKey := false },
   { name := "server_id", ty := SqlType.tUuid, notNull := true, unique := false, primaryKey := false },
   { name := "product_id", ty := SqlType.tUuid, notNull := true, unique := false, primaryKey := false },
   { name := "whmcs_id", ty := SqlType.tInt, notNull := false, unique := true, primaryKey := false }]

/-- A row is an assignment of values to column names. -/
def Row : Type := List (String × SqlValue)

/-- The value a row holds in a named column (`null` when the column is
absent). -/
def lookupCol (r : Row) (n : String) : SqlValue :=
  ((List.find? (fun p => p.1 == n) r).map Prod.snd).getD SqlValue.null

/-- Whether a value is acceptable for a column's declared type (SQL `NULL`
is acceptable for any type). -/
def typeMatches : SqlType → SqlValue → Bool
  | _, SqlValue.null => true
  | SqlType.tText, SqlValue.text _ => true
  | SqlType.tInt, SqlValue.int _ => true
  | SqlType.tUuid, SqlValue.uuid _ => true
  | _, _ => false

/-- A row satisfies one column declaration: the value has the declared type
and is non-null when the column is `NOT NULL` or a primary key. -/
def colOk (r : Row) (c : Column) : Bool :=
  typeMatches c.ty (lookupCol r c.name) &&
    (!(c.notNull || c.primaryKey) || !(lookupCol r c.name == SqlValue.null))

/-- A row satisfies every column declaration of a table. -/
def rowOk (t : List Column) (r : Row) : Bool :=
  t.all (colOk r)

/-- A table state satisfies its schema: every row is well-formed, and for
every `UNIQUE` or `PRIMARY KEY` column the non-null values are pairwise
distinct (SQL `UNIQUE` admits repeated `NULL`s). -/
def tableOk (t : List Column) (rows : List Row) : Prop :=
  (∀ r ∈ rows, rowOk t r = true) ∧
    ∀ c ∈ t, (c.unique || c.primaryKey) = true →
      ((rows.map fun r => lookupCol r c.name).filter
        fun v => !(v == SqlValue.null)).Nodup

/-- Modelled from the spec: the migration/ETL loader's insert step.  The
loader's own code is not under `src/` (only its extraction SQL is); per §6 it
inserts rows "tagged with a legacy-system identifier for idempotent re-runs
(re-running the loader must not duplicate rows already carrying a given
legacy identifier)", so a record is inserted only if no existing row carries
its legacy identifier in the tag column `idCol`. -/
def loadTagged (rows : List Row) (r : Row) (idCol : String) : List Row :=
  if rows.any (fun r0 => lookupCol r0 idCol == lookupCol r idCol) then rows
  else rows ++ [r]

/-- Claim C2 counterexample: the `servers` table carries no legacy-system
identifier at all — its columns are exactly `id`, `network_id`, `vm_id`,
`node_name`, `ip_address`, and the `whmcs_id` migration adds the tag to
`users`, `services`, `products`, `product_groups`, `config_options` and
`custom_fields` but not to `servers`.  So a migrated Server row is not
"identified by its legacy identifier". -/
theorem servers_no_legacy_id :
    serversTable.map Column.name =
      ["id", "network_id", "vm_id", "node_name", "ip_address"] ∧
    "whmcs_id" ∉ serversTable.map Column.name ∧
    "whmcs_id" ∈ servicesTable.map Column.name := by
  decide

/-- Claim C2 (amended): migrated `services` rows (one per legacy `tblhosting`
record, each referencing its server) carry `whmcs_id INT UNIQUE`; the
`servers` table itself carries no legacy identifier, so re-load idempotence
for a server is mediated by its owning service's tag.  The tagged load is
idempotent: re-running it on the same record changes nothing, and loading a
record whose tag is not yet present yields exactly one row carrying that
tag. -/
theorem tagged_load_idempotent :
    servicesTable.any (fun c => c.name == "whmcs_id" && c.unique) = true ∧
    (∀ (rows : List Row) (r : Row),
        loadTagged (loadTagged rows r "whmcs_id") r "whmcs_id" =
          loadTagged rows r "whmcs_id") ∧
    (∀ (rows : List Row) (r : Row),
        (rows.any fun r0 =>
            lookupCol r0 "whmcs_id" == lookupCol r "whmcs_id") = false →
          ((loadTagged rows r "whmcs_id").filter fun r0 =>
              lookupCol r0 "whmcs_id" == lookupCol r "whmcs_id").length = 1) := by
  refine ⟨by decide, ?_, ?_⟩
  · intro rows r
    by_cases h : (rows.any fun r0 =>
        lookupCol r0 "whmcs_id" == lookupCol r "whmcs_id") = true
    · simp [loadTagged, h]
    · have h2 : ((rows ++ [r]).any fun r0 =>
          lookupCol r0 "whmcs_id" == lookupCol r "whmcs_id") = true := by
        simp [List.any_append]
      have h1 : loadTagged rows r "whmcs_id" = rows ++ [r] := by
        rw [loadTagged, if_neg h]
      rw [h1, loadTagged, if_pos h2]
  · intro rows r h
    rw [loadTagged, if_neg (by simp [h]), List.filter_append]
    have hnil : rows.filter (fun r0 =>
        lookupCol r0 "whmcs_id" == lookupCol r "whmcs_id") = [] := by
      rw [List.filter_eq_nil_iff]
      intro r0 hr0
      simpa using List.any_eq_false.mp h r0 hr0
    simp [hnil]

theorem tagged_load_idempotent_witness :
    (([] : List Row).any fun r0 =>
        lookupCol r0 "whmcs_id" == lookupCol [("whmcs_id", SqlValue.int 7)] "whmcs_id") = false ∧
      ((loadTagged [] [("whmcs_id", SqlValue.int 7)] "whmcs_id").filter fun r0 =>
          lookupCol r0 "whmcs_id" ==
            lookupCol [("whmcs_id", SqlValue.int 7)] "whmcs_id").length = 1 := by
  exact ⟨by decide,
    tagged_load_idempotent.2.2 [] [("whmcs_id", SqlValue.int 7)] (by decide)⟩

/-- A `servers` row with the given `vm_id`, `node_name` and `ip_address`
cells (the two mandatory identifier cells filled with concrete UUIDs). -/
def serverRow (vm node ip : SqlValue) : Row :=
  [("id", SqlValue.uuid "5d1cdbe0-0000-4000-8000-000000000001"),
   ("network_id", SqlValue.uuid "5d1cdbe0-0000-4000-8000-000000000002"),
   ("vm_id", vm), ("node_name", node), ("ip_address", ip)]

/-- A `services` row with the given status text (other mandatory cells filled
with concrete UUIDs, the legacy tag left null). -/
def serviceRow (status : String) : Row :=
  [("id", SqlValue.uuid "5d1cdbe0-0000-4000-8000-000000000003"),
   ("status", SqlValue.text status),
   ("user_id", SqlValue.uuid "5d1cdbe0-0000-4000-8000-000000000004"),
   ("server_id", SqlValue.uuid "5d1cdbe0-0000-4000-8000-000000000005"),
   ("product_id", SqlValue.uuid "5d1cdbe0-0000-4000-8000-000000000006"),
   ("whmcs_id", SqlValue.null)]

/-- Overwrite the named cell of a row (no-op when the column is absent). -/
def setCol (r : Row) (n : String) (v : SqlValue) : Row :=
  r.map fun p => if p.1 == n then (p.1, v) else p

/-- Modelled from the spec: the Reconciler's provisioning write (the
dispatcher/reconciler code is not under `src/`).  Per invariant I3 the
hypervisor identifier and node placement are "set at most once, during the
`setting_up → running` transition", so the write fills `vm_id` and
`node_name` only while both are still absent and leaves a provisioned row
untouched. -/
def provisionWrite (r : Row) (vm : Int) (node : String) : Row :=
  if lookupCol r "vm_id" == SqlValue.null &&
      lookupCol r "node_name" == SqlValue.null then
    setCol (setCol r "vm_id" (SqlValue.int vm)) "node_name" (SqlValue.text node)
  else r

/-- Claim C4 counterexample: the schema rejects a `servers` row whose
`ip_address` is null (`ip_address TEXT NOT NULL`), so a row with the
hypervisor identifier, node placement and network address all unset cannot
exist — the address is present from insertion, not only from provisioning. -/
theorem serverRow_all_unset_invalid :
    rowOk serversTable
        (serverRow SqlValue.null SqlValue.null SqlValue.null) = false ∧
    rowOk serversTable
        (serverRow SqlValue.null SqlValue.null (SqlValue.text "10.0.0.5")) = true := by
  decide

/-- Claim C4 (amended): `vm_id` and `node_name` are nullable and absent until
provisioning completes — a schema-valid row can carry both unset — while
`ip_address` is `NOT NULL`, so every schema-valid row carries an address from
insertion; and the provisioning write fills `vm_id`/`node_name` at most once:
re-running it on an already-provisioned row changes nothing. -/
theorem server_provisioning_fields :
    rowOk serversTable
        (serverRow SqlValue.null SqlValue.null (SqlValue.text "10.0.0.5")) = true ∧
    (∀ r : Row, rowOk serversTable r = true →
        lookupCol r "ip_address" ≠ SqlValue.null) ∧
    (∀ (ip : SqlValue) (vm vm2 : Int) (node node2 : String),
        provisionWrite
            (provisionWrite (serverRow SqlValue.null SqlValue.null ip) vm node)
            vm2 node2 =
          provisionWrite (serverRow SqlValue.null SqlValue.null ip) vm node) := by
  refine ⟨by decide, ?_, ?_⟩
  · intro r hr hnull
    have hcol : colOk r
        { name := "ip_address", ty := SqlType.tText, notNull := true,
          unique := false, primaryKey := false } = true := by
      have := List.all_eq_true.mp hr
      exact this _ (by decide)
    rw [colOk, hnull] at hcol
    simp at hcol
  · intro ip vm vm2 node node2
    rfl

theorem server_provisioning_fields_witness :
    rowOk serversTable
        (serverRow SqlValue.null SqlValue.null (SqlValue.text "10.0.0.5")) = true ∧
      lookupCol (serverRow SqlValue.null SqlValue.null (SqlValue.text "10.0.0.5"))
          "ip_address" ≠ SqlValue.null := by
  exact ⟨by decide, server_provisioning_fields.2.1
    (serverRow SqlValue.null SqlValue.null (SqlValue.text "10.0.0.5")) (by decide)⟩

/-- Claim C5 counterexample: `status` is not a column of the `servers` table
at all — it lives on `services` — and the `services.status` column is plain
`TEXT NOT NULL` with no CHECK constraint, so the schema accepts a row whose
status is the string `bogus`, outside the nine-value enum. -/
theorem status_not_on_servers_and_unconstrained :
    "status" ∉ serversTable.map Column.name ∧
    rowOk servicesTable (serviceRow "bogus") = true ∧
    "bogus" ∉ specStatusEnum := by
  decide

/-- Claim C5 (amended): each Service row carries exactly one status — the
column is `TEXT NOT NULL` on `services`, so it is present and non-null on
every valid row — but status is an attribute of the Service entity, not of
the `servers` row; and the nine-value vocabulary is an application
convention, not schema-enforced: the schema accepts any text there, and the
UI maps a value outside the enum to the fallback `primary` chip color. -/
theorem status_column_shape :
    servicesTable.any (fun c => c.name == "status" && c.notNull) = true ∧
    "status" ∉ serversTable.map Column.name ∧
    (∀ s : String, rowOk servicesTable (serviceRow s) = true) ∧
    (∀ r : Row, rowOk servicesTable r = true →
        lookupCol r "status" ≠ SqlValue.null) ∧
    getStatusChipColor "bogus" = ChipColor.primary := by
  refine ⟨by decide, by decide, fun s => rfl, ?_, by decide⟩
  intro r hr hnull
  have hcol : colOk r
      { name := "status", ty := SqlType.tText, notNull := true,
        unique := false, primaryKey := false } = true := by
    have := List.all_eq_true.mp hr
    exact this _ (by decide)
  rw [colOk, hnull] at hcol
  simp at hcol

theorem status_column_shape_witness :
    rowOk servicesTable (serviceRow "running") = true ∧
      lookupCol (serviceRow "running") "status" ≠ SqlValue.null := by
  exact ⟨by decide, status_column_shape.2.2.2.1 (serviceRow "running") (by decide)⟩

/-- A legacy `tblhosting` row (the columns the extraction queries touch). -/
structure TblHosting where
  id : Int
  userid : Int
  domain : String
  domainstatus : String
  deriving DecidableEq, Repr

/-- A legacy `mod_pvewhmcs_vms` row (the columns `get_servers.sql` touches). -/
structure PveVm where
  id : Int
  vmid : Int
  user_id : Int
  node_id : Int
  deriving DecidableEq, Repr

/-- A legacy `tblservers` row. -/
structure TblServer where
  id : Int
  name : String
  deriving DecidableEq, Repr

/-- A legacy `tblclients` row (the columns `get_clients.sql` selects). -/
structure TblClient where
  id : Int
  firstname : String
  lastname : String
  email : String
  address1 : String
  city : String
  state : String
  postcode : String
  country : String
  phonenumber : String
  password : String
  created_at : String
  updated_at : String
  deriving DecidableEq, Repr

/-- A result row of `get_servers.sql`: `vms.id, vms.vmid, srv.name AS node,
hst.domain AS hostname, hst.domainstatus AS status`. -/
structure ServerExtract where
  id : Int
  vmid : Int
  node : Option String
  hostname : String
  status : String
  deriving DecidableEq, Repr

/-- The `LEFT JOIN tblservers srv ON vms.node_id = srv.id` leg: the matching
names, or a single null when no `tblservers` row matches. -/
def leftJoinNode (v : PveVm) (srvs : List TblServer) : List (Option String) :=
  let ms := srvs.filter fun s => v.node_id == s.id
  if ms.isEmpty then [none] else ms.map fun s => some s.name

/-- `get_servers.sql` from the migration tool: join `tblhosting` to
`mod_pvewhmcs_vms` on `userid = user_id`, left-join `tblservers` on
`node_id = id`, and keep only rows with `domainstatus = 'Active'`. -/
def getServersQuery (hosting : List TblHosting) (vms : List PveVm)
    (srvs : List TblServer) : List ServerExtract :=
  hosting.flatMap fun h =>
    (vms.filter fun v => h.userid == v.user_id).flatMap fun v =>
      (leftJoinNode v srvs).filterMap fun nodeName =>
        if h.domainstatus == "Active" then
          some { id := v.id, vmid := v.vmid, node := nodeName,
                 hostname := h.domain, status := h.domainstatus }
        else none

/-- `get_clients.sql` from the migration tool (`src/unnamed/part_002`): join
`tblclients` to `tblhosting` on `id = userid`, and keep only clients with an
`Active` hosting row; the selected columns are the client's own. -/
def getClientsQuery (clients : List TblClient) (hosting : List TblHosting) :
    List TblClient :=
  clients.flatMap fun c =>
    ((hosting.filter fun h => c.id == h.userid).filter
        fun h => h.domainstatus == "Active").map fun _ => c

/-- Claim C10: every row `get_servers.sql` extracts comes from a `tblhosting`
row with `domainstatus = 'Active'` (and carries that status), and every
client `get_clients.sql` extracts is a `tblclients` row with at least one
`Active` hosting row of its own. -/
theorem etl_extracts_only_active :
    (∀ (hosting : List TblHosting) (vms : List PveVm) (srvs : List TblServer),
        ∀ r ∈ getServersQuery hosting vms srvs,
          r.status = "Active" ∧
            ∃ h ∈ hosting, h.domainstatus = "Active" ∧ r.hostname = h.domain) ∧
    (∀ (clients : List TblClient) (hosting : List TblHosting),
        ∀ c ∈ getClientsQuery clients hosting,
          c ∈ clients ∧
            ∃ h ∈ hosting, h.userid = c.id ∧ h.domainstatus = "Active") := by
  constructor
  · intro hosting vms srvs r hr
    rw [getServersQuery, List.mem_flatMap] at hr
    obtain ⟨h, hmem, hr⟩ := hr
    rw [List.mem_flatMap] at hr
    obtain ⟨v, hv, hr⟩ := hr
    rw [List.mem_filterMap] at hr
    obtain ⟨nodeName, _, hr⟩ := hr
    by_cases hact : h.domainstatus == "Active"
    · rw [if_pos hact] at hr
      cases hr
      exact ⟨by simpa using hact, h, hmem, by simpa using hact, rfl⟩
    · rw [if_neg hact] at hr
      cases hr
  · intro clients hosting c hc
    rw [getClientsQuery, List.mem_flatMap] at hc
    obtain ⟨c0, hc0, hc⟩ := hc
    rw [List.mem_map] at hc
    obtain ⟨h, hh, hceq⟩ := hc
    cases hceq
    rw [List.mem_filter] at hh
    obtain ⟨hh, hact⟩ := hh
    rw [List.mem_filter] at hh
    obtain ⟨hmem, hid⟩ := hh
    exact ⟨hc0, h, hmem, by simpa using (beq_iff_eq.mp hid).symm,
      by simpa using hact⟩

/-- A concrete legacy `tblhosting` table used to exercise the extraction
queries. -/
def sampleHosting : List TblHosting :=
  [{ id := 1, userid := 10, domain := "a.example", domainstatus := "Active" },
   { id := 2, userid := 11, domain := "b.example", domainstatus := "Terminated" }]

/-- A concrete legacy `mod_pvewhmcs_vms` table. -/
def sampleVms : List PveVm := [{ id := 5, vmid := 101, user_id := 10, node_id := 3 }]

/-- A concrete legacy `tblservers` table. -/
def sampleSrvs : List TblServer := [{ id := 3, name := "pve1" }]

/-- The row `get_servers.sql` extracts from the sample tables. -/
def sampleExtract : ServerExtract :=
  { id := 5, vmid := 101, node := some "pve1",
    hostname := "a.example", status := "Active" }

theorem etl_extracts_only_active_witness :
    sampleExtract ∈ getServersQuery sampleHosting sampleVms sampleSrvs ∧
      (sampleExtract.status = "Active" ∧
        ∃ h ∈ sampleHosting, h.domainstatus = "Active" ∧
          sampleExtract.hostname = h.domain) := by
  exact ⟨by decide, etl_extracts_only_active.1 sampleHosting sampleVms sampleSrvs
    sampleExtract (by decide)⟩

end Dashboard
